import Mathlib

/-!
Shallow embedding of `src/firestore-send-email/functions/src/index.ts`:
the mail-queue delivery state machine (`processWrite` / `processQueue`),
payload preparation (`preparePayload`) and the delivery executor
(`deliver`).  Timestamps are `Int` milliseconds; the single invocation
time (`Date.now()` / server timestamp) is the `now` field of the
environment.  JavaScript `undefined`/`null` field values are `Option`;
thrown `Error`s are modelled by their message `String`, and
`e.toString()` on an `Error` prefixes `"Error: "`.
-/

namespace FirestoreSendEmail

/-- The `delivery.state` values used by the source's `switch`. -/
inductive DeliveryState
  | PENDING | PROCESSING | RETRY | SUCCESS | ERROR
  deriving DecidableEq, Repr

/-- The optional `template` object of a queue document: `{name, data}`. -/
structure TemplateSpec where
  name : Option String
  data : Option String
  deriving DecidableEq, Repr

/-- Message fields relevant to the template merge; attachments are opaque
strings. -/
structure Message where
  subject : Option String
  text : Option String
  html : Option String
  attachments : Option (List String)
  deriving DecidableEq, Repr

/-- Output of `templates.render(name, data)`: optional subject/text/html
and attachments. -/
structure TemplateRender where
  subject : Option String
  text : Option String
  html : Option String
  attachments : Option (List String)
  deriving DecidableEq, Repr

/-- A `to`/`cc`/`bcc` field: absent, a single string address, or an array
of string addresses (the only shapes `validateFieldArray` accepts). -/
inductive AddrField
  | absent
  | str (s : String)
  | arr (l : List String)
  deriving DecidableEq, Repr

/-- The `delivery.info` block written on success. -/
structure DeliveryInfo where
  messageId : Option String
  accepted : List String
  rejected : List String
  pending : List String
  response : Option String
  deriving DecidableEq, Repr

/-- The mutable `delivery` block of a queue document. -/
structure Delivery where
  state : DeliveryState
  attempts : Nat
  error : Option String
  leaseExpireTime : Option Int
  startTime : Option Int
  endTime : Option Int
  info : Option DeliveryInfo
  deriving DecidableEq, Repr

/-- A queue document (`QueuePayload` in the source).  `errorField` is the
top-level legacy `error` field written by the lease-expiry commit. -/
structure QueuePayload where
  message : Option Message
  template : Option TemplateSpec
  «to» : AddrField
  cc : AddrField
  bcc : AddrField
  toUids : Option (List String)
  ccUids : Option (List String)
  bccUids : Option (List String)
  delivery : Option Delivery
  errorField : Option String
  deriving DecidableEq, Repr

/-- A user-directory document; `email` is its (optional) email field. -/
structure UserDoc where
  email : Option String
  deriving DecidableEq, Repr

/-- The transport's send result (`nodemailer`), every field optional. -/
structure MailResult where
  messageId : Option String
  accepted : Option (List String)
  rejected : Option (List String)
  pending : Option (List String)
  response : Option String
  deriving DecidableEq, Repr

/-- External collaborators and configuration for one invocation:
whether `config.templatesCollection` (hence the `templates` global) and
`config.usersCollection` are set, the template renderer, the user
directory (`db.getAll` restricted to the `email` field), the transport's
outcome for this invocation's (single possible) `sendMail`, and the
invocation time. -/
structure Env where
  templatesConfigured : Bool
  render : String → Option String → Except String TemplateRender
  usersConfigured : Bool
  dir : String → Option UserDoc
  sendResult : Except String MailResult
  now : Int

/-- JavaScript `x || null` on an optional string: the empty string is
falsy, so it too becomes null. -/
def jsOrNull (o : Option String) : Option String :=
  match o with
  | some s => if s = "" then none else some s
  | none => none

/-- The `info` object built from the transport result in `deliver`
(lines 266-272): each field defaulted via `||`. -/
def infoOfResult (r : MailResult) : DeliveryInfo :=
  { messageId := jsOrNull r.messageId
    accepted := r.accepted.getD []
    rejected := r.rejected.getD []
    pending := r.pending.getD []
    response := jsOrNull r.response }

/-- Result of `e.toString()` for a thrown `Error` with message `e`. -/
def errToString (e : String) : String := "Error: " ++ e

/-- The attachments chosen by the template merge (lines 106-108):
template attachments win whenever the render produced an attachments
field (a present empty array is truthy in JS), else the message's. -/
def mergedAttachments (tr : TemplateRender) (m : Message) : Option (List String) :=
  match tr.attachments with
  | some a => some a
  | none => m.attachments

/-- A message with no fields (the `{}` default for `payload.message`). -/
def emptyMessage : Message := ⟨none, none, none, none⟩

/-- The merge `Object.assign(mergeMessage, templateRender, ...)` with the attachments slot
(lines 104-112): render output fields override message fields where
present, and the attachments slot is the merge result defaulted to `[]`. -/
def mergeTemplate (m : Message) (tr : TemplateRender) : Message :=
  { subject := tr.subject.orElse fun _ => m.subject
    text := tr.text.orElse fun _ => m.text
    html := tr.html.orElse fun _ => m.html
    attachments := some ((mergedAttachments tr m).getD []) }

/-- The template block of `preparePayload` (lines 95-113): runs only when
templates are configured and the payload names a template; a missing (or
falsy empty) `name` throws; the render may throw; otherwise the render
output is merged into `payload.message`. -/
def applyTemplate (env : Env) (p : QueuePayload) : Except String QueuePayload :=
  match p.template with
  | none => .ok p
  | some t =>
    if env.templatesConfigured then
      match t.name with
      | none => .error "Template object is missing a 'name' parameter."
      | some n =>
        if n = "" then .error "Template object is missing a 'name' parameter."
        else
          match env.render n t.data with
          | .error e => .error e
          | .ok tr => .ok { p with message := some (mergeTemplate (p.message.getD emptyMessage) tr) }
    else .ok p

/-- Normalisation of a literal address field (lines 119-138): a string
becomes a one-element list, an array is used as-is, an absent field
contributes nothing. -/
def litAddrs : AddrField → List String
  | .absent => []
  | .str s => [s]
  | .arr l => l

/-- Value of `toFetch[uid]` after the directory fetch (lines 169-195): the email
of the user document when it exists and its `email` field is truthy,
otherwise nothing (the uid is only logged as missing). -/
def lookupEmail (dir : String → Option UserDoc) (uid : String) : Option String :=
  match dir uid with
  | none => none
  | some d =>
    match d.email with
    | none => none
    | some e => if e = "" then none else some e

/-- The uid-resolution loops (lines 199-230): for each uid of the field,
in order, push its resolved email when present. -/
def resolveUids (dir : String → Option UserDoc) (uids : Option (List String)) : List String :=
  (uids.getD []).filterMap (lookupEmail dir)

/-- The function `preparePayload` (lines 94-233): template merge, literal-address
normalisation, early return when no uid field is present, the
users-collection guard, then uid resolution appended after the literals. -/
def preparePayload (env : Env) (p0 : QueuePayload) : Except String QueuePayload :=
  match applyTemplate env p0 with
  | .error e => .error e
  | .ok p =>
    let tos := litAddrs p.«to»
    let ccs := litAddrs p.cc
    let bccs := litAddrs p.bcc
    if p.toUids = none ∧ p.ccUids = none ∧ p.bccUids = none then
      .ok { p with «to» := .arr tos, cc := .arr ccs, bcc := .arr bccs }
    else if ¬ env.usersConfigured then
      .error "Must specify a users collection to send using uids."
    else
      .ok { p with
        «to» := .arr (tos ++ resolveUids env.dir p.toUids)
        cc := .arr (ccs ++ resolveUids env.dir p.ccUids)
        bcc := .arr (bccs ++ resolveUids env.dir p.bccUids) }

/-- The state update committed by `deliver` (lines 240-281): `attempts`
is a `FieldValue.increment`, `endTime` a server timestamp, and the other
slots are the final values of the `update` object. -/
structure DeliverUpdate where
  attemptsIncrement : Nat
  endTimeStamped : Bool
  state : DeliveryState
  error : Option String
  leaseExpireTime : Option Int
  info : Option DeliveryInfo
  deriving DecidableEq, Repr

/-- The `try` body of `deliver` (lines 247-272): prepare the payload,
reject when no recipient remains, and consult the transport; any thrown
error is the `.error` case. -/
def deliverAttempt (env : Env) (p : QueuePayload) : Except String DeliveryInfo :=
  match preparePayload env p with
  | .error e => .error e
  | .ok q =>
    if (litAddrs q.«to»).isEmpty ∧ (litAddrs q.cc).isEmpty ∧ (litAddrs q.bcc).isEmpty then
      .error "Failed to deliver email. Expected at least 1 recipient."
    else
      match env.sendResult with
      | .error e => .error e
      | .ok r => .ok (infoOfResult r)

/-- The function `deliver` (lines 235-288): the single committed update.  The base
update increments `attempts`, stamps `endTime` and nulls `error` and
`leaseExpireTime`; success adds `state=SUCCESS` and `info`, the catch
branch overwrites `state=ERROR` and `error=e.toString()`. -/
def deliver (env : Env) (p : QueuePayload) : DeliverUpdate :=
  match deliverAttempt env p with
  | .ok i =>
    { attemptsIncrement := 1, endTimeStamped := true, state := .SUCCESS
      error := none, leaseExpireTime := none, info := some i }
  | .error e =>
    { attemptsIncrement := 1, endTimeStamped := true, state := .ERROR
      error := some (errToString e), leaseExpireTime := none, info := none }

/-- The events the source records (module `events`). -/
inductive Event
  | start | pending | processing | retry | success | complete
  | error (msg : Option String)
  deriving DecidableEq, Repr

/-- The transactional document updates an invocation can commit:
`processCreate`'s whole-`delivery` write, the lease-expiry commit, the
lease-acquisition commit of the PENDING/RETRY path, and `deliver`'s
outcome commit. -/
inductive DocUpdate
  | initDelivery
  | leaseExpired
  | setProcessing (lease : Int)
  | deliverResult (u : DeliverUpdate)
  deriving DecidableEq, Repr

/-- One observable step of an invocation: an emitted event or a
committed transactional update, in program order. -/
inductive Action
  | event (e : Event)
  | commit (u : DocUpdate)
  deriving DecidableEq, Repr

/-- Outcome of `processWrite`: the actions performed, and the message of
a runtime error it threw (after the listed actions), if any. -/
structure WriteResult where
  actions : List Action
  thrown : Option String
  deriving DecidableEq, Repr

/-- The before/after snapshot pair of the trigger. -/
structure Change where
  before : Option QueuePayload
  after : Option QueuePayload

/-- The `TypeError` thrown by
`payload.delivery.leaseExpireTime.toMillis()` when `leaseExpireTime` is
null or absent (line 319); the exact runtime message is
engine-dependent, only its existence matters. -/
def leaseDerefMsg : String :=
  "Cannot read properties of undefined (reading 'toMillis')"

/-- The `RETRY` arm of the switch (lines 341-355), which the `PENDING`
arm falls through to: retry event, lease-acquisition commit with
`Date.now() + 60000`, then `deliver`'s commit. -/
def retryPath (env : Env) (p : QueuePayload) : List Action :=
  [Action.event .retry,
   Action.commit (.setProcessing (env.now + 60000)),
   Action.commit (.deliverResult (deliver env p))]

/-- The function `processWrite` (lines 290-357): deletion and missing-`delivery`
no-ops, creation initialisation, and the five-state switch with its two
fallthroughs (`SUCCESS` into the error-event emission, `PENDING` into
`RETRY`). -/
def processWrite (env : Env) (c : Change) : WriteResult :=
  match c.after with
  | none => ⟨[], none⟩
  | some p =>
    match c.before with
    | none => ⟨[Action.commit .initDelivery], none⟩
    | some _ =>
      match p.delivery with
      | none => ⟨[], none⟩
      | some d =>
        match d.state with
        | .SUCCESS => ⟨[Action.event .success, Action.event (.error d.error)], none⟩
        | .ERROR => ⟨[Action.event (.error d.error)], none⟩
        | .PROCESSING =>
          match d.leaseExpireTime with
          | none => ⟨[Action.event .processing], some leaseDerefMsg⟩
          | some t =>
            if t < env.now then
              ⟨[Action.event .processing,
                Action.event (.error (some "Message processing lease expired.")),
                Action.commit .leaseExpired], none⟩
            else
              ⟨[Action.event .processing], none⟩
        | .PENDING => ⟨Action.event .pending :: retryPath env p, none⟩
        | .RETRY => ⟨retryPath env p, none⟩

/-- The message recorded by `processQueue`'s catch (line 376); the
source template carries a stray trailing double quote. -/
def unhandledMsg (m : String) : String :=
  "Unhandled error occurred during processing: " ++ m ++ "\""

/-- The handler `processQueue` (lines 359-386): start event on creation, the guarded
`processWrite` whose throw becomes an error event and suppresses the
completion event, and otherwise the completion event. -/
def processQueue (env : Env) (c : Change) : List Action :=
  (if c.before = none then [Action.event .start] else []) ++
  (processWrite env c).actions ++
  (match (processWrite env c).thrown with
   | some m => [Action.event (.error (some (unhandledMsg m)))]
   | none => [Action.event .complete])

/-- A `delivery` block as dotted-path updates see it when the field was
absent (Firestore creates the map); only used off the claims' paths. -/
def defaultDelivery : Delivery := ⟨.PENDING, 0, none, none, none, none, none⟩

/-- Firestore partial-update semantics of each commit on the document,
with `now` the server timestamp. -/
def applyUpdate (now : Int) (p : QueuePayload) : DocUpdate → QueuePayload
  | .initDelivery =>
    { p with delivery := some ⟨.PENDING, 0, none, none, some now, none, none⟩ }
  | .leaseExpired =>
    let d := p.delivery.getD defaultDelivery
    { p with
      errorField := some "Message processing lease expired."
      delivery := some { d with state := .ERROR
                                error := some "Message processing lease expired." } }
  | .setProcessing t =>
    let d := p.delivery.getD defaultDelivery
    { p with delivery := some { d with state := .PROCESSING, leaseExpireTime := some t } }
  | .deliverResult u =>
    let d := p.delivery.getD defaultDelivery
    { p with delivery := some { d with
        attempts := d.attempts + u.attemptsIncrement
        endTime := if u.endTimeStamped then some now else d.endTime
        error := u.error
        leaseExpireTime := u.leaseExpireTime
        state := u.state
        info := match u.info with | some i => some i | none => d.info } }

/-- Replay the commits of an action list onto the document. -/
def applyActions (now : Int) (p : QueuePayload) (l : List Action) : QueuePayload :=
  l.foldl (fun q a => match a with | .commit u => applyUpdate now q u | .event _ => q) p

/-! Concrete fixtures used to instantiate the theorems. -/

/-- A renderer knowing one template, `welcome`. -/
def sampleRender : String → Option String → Except String TemplateRender :=
  fun n _ =>
    if n = "welcome" then .ok ⟨some "Welcome!", some "glad you joined", none, none⟩
    else if n = "invoice" then .ok ⟨none, none, none, some ["b.pdf"]⟩
    else .error ("Template not found: " ++ n)

/-- A directory with one user with an email, one without, others absent. -/
def sampleDir : String → Option UserDoc :=
  fun u =>
    if u = "u1" then some ⟨some "u1@example.com"⟩
    else if u = "u2" then some ⟨none⟩
    else none

/-- A successful transport result. -/
def sampleResult : MailResult :=
  ⟨some "msg-1", some ["a@x.com"], none, none, some "250 OK"⟩

/-- An environment with templates and users configured, a working
transport, at time 1000000. -/
def sampleEnv : Env :=
  ⟨true, sampleRender, true, sampleDir, .ok sampleResult, 1000000⟩

/-- A plain message document addressed to one literal recipient. -/
def basePayload : QueuePayload :=
  ⟨some ⟨some "hi", some "hello", none, none⟩, none, .str "a@x.com",
   .absent, .absent, none, none, none, none, none⟩

/-- The document `basePayload` with a given delivery block. -/
def withDelivery (d : Delivery) : QueuePayload :=
  { basePayload with delivery := some d }

/-- A document observed mid-processing with the given lease. -/
def processingDoc (lease : Option Int) : QueuePayload :=
  withDelivery ⟨.PROCESSING, 2, none, lease, some 0, none, none⟩

/-- An update-change whose before and after snapshots are `p`. -/
def selfChange (p : QueuePayload) : Change := ⟨some p, some p⟩

/-- C1: a `PROCESSING` document whose lease has not yet expired is left
entirely alone by `processWrite`: the only action is the processing
event — no transactional update, no send — and replaying the invocation
leaves the document unchanged. -/
theorem processing_unexpired_noop (env : Env) (c : Change) (b p : QueuePayload)
    (d : Delivery) (t : Int)
    (hb : c.before = some b) (ha : c.after = some p)
    (hd : p.delivery = some d) (hs : d.state = .PROCESSING)
    (hl : d.leaseExpireTime = some t) (hfut : ¬ t < env.now) :
    processWrite env c = ⟨[Action.event .processing], none⟩ ∧
    applyActions env.now p (processWrite env c).actions = p := by
  have hw : processWrite env c = ⟨[Action.event .processing], none⟩ := by
    simp [processWrite, ha, hb, hd, hs, hl, hfut]
  exact ⟨hw, by rw [hw]; simp [applyActions]⟩

/-- Witness for C1 at a concrete stuck-but-leased document. -/
theorem processing_unexpired_noop_witness :
    processWrite sampleEnv (selfChange (processingDoc (some 2000000))) =
      ⟨[Action.event .processing], none⟩ ∧
    applyActions sampleEnv.now (processingDoc (some 2000000))
      (processWrite sampleEnv (selfChange (processingDoc (some 2000000)))).actions =
      processingDoc (some 2000000) :=
  processing_unexpired_noop sampleEnv _ _ _ _ 2000000 rfl rfl rfl rfl rfl (by decide)

/-- C4: a `PROCESSING` document whose lease has expired gets the
processing event, an error event mentioning the expired lease, and a
single commit that sets `state = ERROR` with that message while leaving
`attempts` (and everything else in `delivery`) untouched; no send
happens. -/
theorem processing_expired_to_error (env : Env) (c : Change) (b p : QueuePayload)
    (d : Delivery) (t : Int)
    (hb : c.before = some b) (ha : c.after = some p)
    (hd : p.delivery = some d) (hs : d.state = .PROCESSING)
    (hl : d.leaseExpireTime = some t) (hpast : t < env.now) :
    processWrite env c =
      ⟨[Action.event .processing,
        Action.event (.error (some "Message processing lease expired.")),
        Action.commit .leaseExpired], none⟩ ∧
    applyActions env.now p (processWrite env c).actions =
      { p with
        errorField := some "Message processing lease expired."
        delivery := some { d with state := .ERROR
                                  error := some "Message processing lease expired." } } := by
  have hw : processWrite env c =
      ⟨[Action.event .processing,
        Action.event (.error (some "Message processing lease expired.")),
        Action.commit .leaseExpired], none⟩ := by
    simp [processWrite, ha, hb, hd, hs, hl, hpast]
  refine ⟨hw, ?_⟩
  rw [hw]
  simp [applyActions, applyUpdate, hd]

/-- Witness for C4 at a concrete document whose lease expired at time
500, observed at time 1000000; attempts stay at 2. -/
theorem processing_expired_to_error_witness :
    processWrite sampleEnv (selfChange (processingDoc (some 500))) =
      ⟨[Action.event .processing,
        Action.event (.error (some "Message processing lease expired.")),
        Action.commit .leaseExpired], none⟩ ∧
    applyActions sampleEnv.now (processingDoc (some 500))
      (processWrite sampleEnv (selfChange (processingDoc (some 500)))).actions =
      { processingDoc (some 500) with
        errorField := some "Message processing lease expired."
        delivery := some ⟨.ERROR, 2, some "Message processing lease expired.",
                          some 500, some 0, none, none⟩ } :=
  processing_expired_to_error sampleEnv _ _ _ _ 500 rfl rfl rfl rfl rfl (by decide)

/-- C5: a `PENDING` or `RETRY` document first gets the commit that sets
`state = PROCESSING` with `leaseExpireTime = now + 60000` ms, and only
after that commit the delivery attempt's commit; `PENDING` runs the very
same `RETRY` path, preceded by the pending event. -/
theorem pending_retry_lease_then_deliver (env : Env) (c : Change) (b p : QueuePayload)
    (d : Delivery)
    (hb : c.before = some b) (ha : c.after = some p)
    (hd : p.delivery = some d)
    (hs : d.state = .PENDING ∨ d.state = .RETRY) :
    processWrite env c =
      ⟨(if d.state = .PENDING then [Action.event .pending] else []) ++
        [Action.event .retry,
         Action.commit (.setProcessing (env.now + 60000)),
         Action.commit (.deliverResult (deliver env p))], none⟩ := by
  rcases hs with h | h <;> simp [processWrite, ha, hb, hd, h, retryPath]

/-- Witness for C5 at a concrete `RETRY` document. -/
theorem pending_retry_lease_then_deliver_witness :
    processWrite sampleEnv
      (selfChange (withDelivery ⟨.RETRY, 1, some "boom", none, some 0, none, none⟩)) =
      ⟨(if DeliveryState.RETRY = .PENDING then [Action.event .pending] else []) ++
        [Action.event .retry,
         Action.commit (.setProcessing (sampleEnv.now + 60000)),
         Action.commit (.deliverResult (deliver sampleEnv
           (withDelivery ⟨.RETRY, 1, some "boom", none, some 0, none, none⟩)))], none⟩ :=
  pending_retry_lease_then_deliver sampleEnv _ _ _ _ rfl rfl rfl (Or.inr rfl)

/-- C9: a document observed in `SUCCESS` yields the success event
followed by an error-type event carrying the document's own `error`
field; one observed in `ERROR` yields only that error event.  Neither
commits anything, so the document is unchanged — both states are
terminal. -/
theorem success_error_terminal (env : Env) (c : Change) (b p : QueuePayload)
    (d : Delivery)
    (hb : c.before = some b) (ha : c.after = some p)
    (hd : p.delivery = some d)
    (hs : d.state = .SUCCESS ∨ d.state = .ERROR) :
    processWrite env c =
      ⟨(if d.state = .SUCCESS then [Action.event .success] else []) ++
        [Action.event (.error d.error)], none⟩ ∧
    applyActions env.now p (processWrite env c).actions = p := by
  have hw : processWrite env c =
      ⟨(if d.state = .SUCCESS then [Action.event .success] else []) ++
        [Action.event (.error d.error)], none⟩ := by
    rcases hs with h | h <;> simp [processWrite, ha, hb, hd, h]
  refine ⟨hw, ?_⟩
  rw [hw]
  rcases hs with h | h <;> simp [h, applyActions]

/-- Witness for C9 at a concrete `SUCCESS` document (null error field). -/
theorem success_error_terminal_witness :
    processWrite sampleEnv
      (selfChange (withDelivery ⟨.SUCCESS, 1, none, none, some 0, some 5, none⟩)) =
      ⟨(if DeliveryState.SUCCESS = .SUCCESS then [Action.event .success] else []) ++
        [Action.event (.error none)], none⟩ ∧
    applyActions sampleEnv.now (withDelivery ⟨.SUCCESS, 1, none, none, some 0, some 5, none⟩)
      (processWrite sampleEnv
        (selfChange (withDelivery ⟨.SUCCESS, 1, none, none, some 0, some 5, none⟩))).actions =
      withDelivery ⟨.SUCCESS, 1, none, none, some 0, some 5, none⟩ :=
  success_error_terminal sampleEnv
    (selfChange (withDelivery ⟨.SUCCESS, 1, none, none, some 0, some 5, none⟩))
    (withDelivery ⟨.SUCCESS, 1, none, none, some 0, some 5, none⟩)
    (withDelivery ⟨.SUCCESS, 1, none, none, some 0, some 5, none⟩)
    ⟨.SUCCESS, 1, none, none, some 0, some 5, none⟩
    rfl rfl rfl (Or.inl rfl)

/-- C10: a `PROCESSING` document with a null/absent `leaseExpireTime`
makes `processWrite` throw right after the processing event; the
top-level handler catches it and records the unhandled-error event, so
the full invocation emits exactly the processing event and that error
event, commits nothing, and the document stays as it was — still
`PROCESSING`. -/
theorem processing_missing_lease_throws (env : Env) (c : Change) (b p : QueuePayload)
    (d : Delivery)
    (hb : c.before = some b) (ha : c.after = some p)
    (hd : p.delivery = some d) (hs : d.state = .PROCESSING)
    (hl : d.leaseExpireTime = none) :
    processWrite env c = ⟨[Action.event .processing], some leaseDerefMsg⟩ ∧
    processQueue env c =
      [Action.event .processing,
       Action.event (.error (some (unhandledMsg leaseDerefMsg)))] ∧
    applyActions env.now p (processQueue env c) = p := by
  have hw : processWrite env c = ⟨[Action.event .processing], some leaseDerefMsg⟩ := by
    simp [processWrite, ha, hb, hd, hs, hl]
  have hq : processQueue env c =
      [Action.event .processing,
       Action.event (.error (some (unhandledMsg leaseDerefMsg)))] := by
    simp [processQueue, hw, hb]
  exact ⟨hw, hq, by rw [hq]; simp [applyActions]⟩

/-- Witness for C10 at a concrete leaseless `PROCESSING` document. -/
theorem processing_missing_lease_throws_witness :
    processWrite sampleEnv (selfChange (processingDoc none)) =
      ⟨[Action.event .processing], some leaseDerefMsg⟩ ∧
    processQueue sampleEnv (selfChange (processingDoc none)) =
      [Action.event .processing,
       Action.event (.error (some (unhandledMsg leaseDerefMsg)))] ∧
    applyActions sampleEnv.now (processingDoc none)
      (processQueue sampleEnv (selfChange (processingDoc none))) =
      processingDoc none :=
  processing_missing_lease_throws sampleEnv _ _ _ _ rfl rfl rfl rfl rfl

/-- C2: `deliver` always commits a single update incrementing
`attempts` by exactly 1, stamping `endTime` and nulling
`leaseExpireTime`; when preparation, the zero-recipient check and the
transport send all succeed the update is the SUCCESS one with the
defaulted `info` and a null `error`, and when any of them fails it is
the ERROR one with the stringified failure. -/
theorem deliver_update_contract (env : Env) (p : QueuePayload) :
    (deliver env p).attemptsIncrement = 1 ∧
    (deliver env p).endTimeStamped = true ∧
    (deliver env p).leaseExpireTime = none ∧
    (∀ q r, preparePayload env p = .ok q →
      ¬((litAddrs q.«to»).isEmpty ∧ (litAddrs q.cc).isEmpty ∧ (litAddrs q.bcc).isEmpty) →
      env.sendResult = .ok r →
      deliver env p = ⟨1, true, .SUCCESS, none, none, some (infoOfResult r)⟩) ∧
    (∀ e, deliverAttempt env p = .error e →
      deliver env p = ⟨1, true, .ERROR, some (errToString e), none, none⟩) := by
  refine ⟨?_, ?_, ?_, ?_, ?_⟩
  · cases h : deliverAttempt env p <;> simp [deliver, h]
  · cases h : deliverAttempt env p <;> simp [deliver, h]
  · cases h : deliverAttempt env p <;> simp [deliver, h]
  · intro q r hq hne hs
    have hA : deliverAttempt env p = .ok (infoOfResult r) := by
      simp [deliverAttempt, hq, hs]
      exact fun h1 h2 h3 => hne ⟨by simp [h1], by simp [h2], by simp [h3]⟩
    simp [deliver, hA]
  · intro e he
    simp [deliver, he]

/-- Witness for C2: one application on a payload that succeeds
end-to-end, one on a payload that fails preparation (empty template
name), both at concrete inputs. -/
theorem deliver_update_contract_witness :
    deliver sampleEnv basePayload =
      ⟨1, true, .SUCCESS, none, none, some (infoOfResult sampleResult)⟩ ∧
    deliver sampleEnv { basePayload with template := some ⟨none, none⟩ } =
      ⟨1, true, .ERROR,
       some (errToString "Template object is missing a 'name' parameter."), none, none⟩ :=
  ⟨(deliver_update_contract sampleEnv basePayload).2.2.2.1
      { basePayload with «to» := .arr ["a@x.com"], cc := .arr [], bcc := .arr [] }
      sampleResult rfl (by decide) rfl,
   (deliver_update_contract sampleEnv { basePayload with template := some ⟨none, none⟩ }).2.2.2.2
      "Template object is missing a 'name' parameter." rfl⟩

/-- Helper: `processWrite` itself never emits the completion event; only the
top-level `processQueue` does. -/
theorem complete_not_in_write (env : Env) (c : Change) :
    Action.event .complete ∉ (processWrite env c).actions := by
  rcases c with ⟨b, a⟩
  cases a with
  | none => simp [processWrite]
  | some p =>
    cases b with
    | none => simp [processWrite]
    | some b0 =>
      cases hd : p.delivery with
      | none => simp [processWrite, hd]
      | some d =>
        cases hs : d.state <;> simp [processWrite, hd, hs, retryPath]
        cases hl : d.leaseExpireTime with
        | none => simp
        | some t =>
          by_cases hlt : t < env.now <;> simp [hlt]

/-- C3 counterexample: the claim exempts the deleted-document no-op from
the completion event, but deleting a document does produce the
completion event; and on the caught unhandled-error path (a leaseless
`PROCESSING` document) — which the claim does not exempt — no completion
event is emitted. -/
theorem completion_event_counterexample :
    Action.event .complete ∈ processQueue sampleEnv ⟨some basePayload, none⟩ ∧
    Action.event .complete ∉ processQueue sampleEnv (selfChange (processingDoc none)) := by
  decide

/-- C3 amended: any failure thrown out of `processWrite` is caught by
`processQueue` and turned into an error event whose message is the
unhandled-error prefix applied to the thrown message, the invocation
completing normally; the completion event is emitted on every exit path
except that caught-error path — in particular the deleted-document and
missing-delivery no-ops do emit it. -/
theorem processQueue_error_boundary (env : Env) (c : Change) :
    (∀ m, (processWrite env c).thrown = some m →
      processQueue env c =
        (if c.before = none then [Action.event .start] else []) ++
        (processWrite env c).actions ++
        [Action.event (.error (some (unhandledMsg m)))] ∧
      Action.event .complete ∉ processQueue env c) ∧
    ((processWrite env c).thrown = none →
      processQueue env c =
        (if c.before = none then [Action.event .start] else []) ++
        (processWrite env c).actions ++ [Action.event .complete]) := by
  constructor
  · intro m hm
    have htr : processQueue env c =
        (if c.before = none then [Action.event .start] else []) ++
        (processWrite env c).actions ++
        [Action.event (.error (some (unhandledMsg m)))] := by
      simp [processQueue, hm]
    refine ⟨htr, ?_⟩
    intro hmem
    rw [htr] at hmem
    rcases List.mem_append.mp hmem with h12 | h3
    · rcases List.mem_append.mp h12 with h1 | h2
      · by_cases h : c.before = none <;> simp [h] at h1
      · exact complete_not_in_write env c h2
    · simp at h3
  · intro hn
    simp [processQueue, hn]

/-- Witness for the amended C3: the caught-error path at a concrete
leaseless `PROCESSING` document emits no completion event, and the
deleted-document path does emit one. -/
theorem processQueue_error_boundary_witness :
    (processQueue sampleEnv (selfChange (processingDoc none)) =
      (if (selfChange (processingDoc none)).before = none then [Action.event .start] else []) ++
      (processWrite sampleEnv (selfChange (processingDoc none))).actions ++
      [Action.event (.error (some (unhandledMsg leaseDerefMsg)))] ∧
     Action.event .complete ∉ processQueue sampleEnv (selfChange (processingDoc none))) ∧
    processQueue sampleEnv ⟨some basePayload, none⟩ =
      (if (Change.mk (some basePayload) none).before = none then [Action.event .start] else []) ++
      (processWrite sampleEnv ⟨some basePayload, none⟩).actions ++ [Action.event .complete] :=
  ⟨(processQueue_error_boundary sampleEnv (selfChange (processingDoc none))).1 leaseDerefMsg rfl,
   (processQueue_error_boundary sampleEnv ⟨some basePayload, none⟩).2 rfl⟩

/-- The template block only ever touches `message`: all other fields of
the payload survive it unchanged. -/
theorem applyTemplate_frame (env : Env) (p p' : QueuePayload)
    (h : applyTemplate env p = .ok p') :
    p'.«to» = p.«to» ∧ p'.cc = p.cc ∧ p'.bcc = p.bcc ∧
    p'.toUids = p.toUids ∧ p'.ccUids = p.ccUids ∧ p'.bccUids = p.bccUids := by
  unfold applyTemplate at h
  split at h
  · cases h
    exact ⟨rfl, rfl, rfl, rfl, rfl, rfl⟩
  · split at h
    · split at h
      · cases h
      · split at h
        · cases h
        · split at h
          · cases h
          · cases h
            exact ⟨rfl, rfl, rfl, rfl, rfl, rfl⟩
    · cases h
      exact ⟨rfl, rfl, rfl, rfl, rfl, rfl⟩

/-- The shape of every successful `preparePayload` result in terms of
the post-template payload `p'`: the recipient fields become the literal
lists with the uid-resolved addresses appended, everything else is
`p'`. -/
theorem prepare_ok_spec (env : Env) (p p' q : QueuePayload)
    (hA : applyTemplate env p = .ok p')
    (hq : preparePayload env p = .ok q) :
    q = { p' with
      «to» := .arr (litAddrs p'.«to» ++ resolveUids env.dir p'.toUids)
      cc := .arr (litAddrs p'.cc ++ resolveUids env.dir p'.ccUids)
      bcc := .arr (litAddrs p'.bcc ++ resolveUids env.dir p'.bccUids) } := by
  by_cases h1 : p'.toUids = none ∧ p'.ccUids = none ∧ p'.bccUids = none
  · have he : preparePayload env p =
        .ok { p' with «to» := .arr (litAddrs p'.«to»), cc := .arr (litAddrs p'.cc),
                      bcc := .arr (litAddrs p'.bcc) } := by
      unfold preparePayload
      rw [hA]
      simp [h1]
    rw [he] at hq
    cases hq
    obtain ⟨ha1, ha2, ha3⟩ := h1
    simp [ha1, ha2, ha3, resolveUids]
  · by_cases h2 : env.usersConfigured
    · have he : preparePayload env p =
          .ok { p' with
            «to» := .arr (litAddrs p'.«to» ++ resolveUids env.dir p'.toUids)
            cc := .arr (litAddrs p'.cc ++ resolveUids env.dir p'.ccUids)
            bcc := .arr (litAddrs p'.bcc ++ resolveUids env.dir p'.bccUids) } := by
        unfold preparePayload
        rw [hA]
        simp [h1, h2]
      rw [he] at hq
      cases hq
      rfl
    · have he : preparePayload env p =
          .error "Must specify a users collection to send using uids." := by
        unfold preparePayload
        rw [hA]
        simp [h1, h2]
      rw [he] at hq
      cases hq

/-- A message carrying an explicit attachment. -/
def msgWithA : Message := ⟨some "hi", some "hello", none, some ["a.pdf"]⟩

/-- What `sampleRender` returns for `welcome` (no attachments). -/
def welcomeRender : TemplateRender := ⟨some "Welcome!", some "glad you joined", none, none⟩

/-- What `sampleRender` returns for `invoice` (attachments `[b.pdf]`). -/
def invoiceRender : TemplateRender := ⟨none, none, none, some ["b.pdf"]⟩

/-- The document `basePayload` with attachment-bearing message and the named template. -/
def payloadWithTemplate (n : String) : QueuePayload :=
  { basePayload with message := some msgWithA, template := some ⟨some n, none⟩ }

/-- The prepared form of `payloadWithTemplate` under `sampleEnv`. -/
def preparedOf (n : String) : QueuePayload :=
  { payloadWithTemplate n with
    message := some (mergeTemplate msgWithA
      (if n = "welcome" then welcomeRender else invoiceRender))
    «to» := .arr ["a@x.com"], cc := .arr [], bcc := .arr [] }

/-- C6: whenever the template merge runs (templates configured, template
named, render succeeded), the prepared payload's message is the merge,
and the merged attachments are the template's when the render produced
an attachments field, else the message's own, else the empty list. -/
theorem template_merge_attachments (env : Env) (p : QueuePayload) (t : TemplateSpec)
    (n : String) (tr : TemplateRender) (m : Message) (q : QueuePayload)
    (hconf : env.templatesConfigured = true)
    (ht : p.template = some t) (hn : t.name = some n) (hne : ¬ n = "")
    (hr : env.render n t.data = .ok tr)
    (hm : p.message = some m)
    (hq : preparePayload env p = .ok q) :
    q.message = some (mergeTemplate m tr) ∧
    (mergeTemplate m tr).attachments =
      some (match tr.attachments, m.attachments with
            | some b, _ => b
            | none, some a => a
            | none, none => []) := by
  have hA : applyTemplate env p = .ok { p with message := some (mergeTemplate m tr) } := by
    simp [applyTemplate, ht, hconf, hn, hne, hr, hm]
  have hspec := prepare_ok_spec env p _ q hA hq
  constructor
  · rw [hspec]
  · cases htr : tr.attachments <;> cases hma : m.attachments <;>
      simp [mergeTemplate, mergedAttachments, htr, hma]

/-- Witness for C6: `message.attachments = [a.pdf]` with a template
producing no attachments keeps `[a.pdf]`; template attachments
`[b.pdf]` override explicit `[a.pdf]`. -/
theorem template_merge_attachments_witness :
    ((preparedOf "welcome").message = some (mergeTemplate msgWithA welcomeRender) ∧
     (mergeTemplate msgWithA welcomeRender).attachments = some ["a.pdf"]) ∧
    ((preparedOf "invoice").message = some (mergeTemplate msgWithA invoiceRender) ∧
     (mergeTemplate msgWithA invoiceRender).attachments = some ["b.pdf"]) :=
  ⟨template_merge_attachments sampleEnv (payloadWithTemplate "welcome") ⟨some "welcome", none⟩
      "welcome" welcomeRender msgWithA (preparedOf "welcome")
      rfl rfl rfl (by decide) rfl rfl rfl,
   template_merge_attachments sampleEnv (payloadWithTemplate "invoice") ⟨some "invoice", none⟩
      "invoice" invoiceRender msgWithA (preparedOf "invoice")
      rfl rfl rfl (by decide) rfl rfl rfl⟩

/-- C7: every successful preparation puts the normalised literal
addresses first, in order, and appends the uid-resolved addresses in the
uid field's order; uids whose directory lookup yields no email are
simply dropped (the lookup returning `none`), not errors. -/
theorem prepare_recipient_order (env : Env) (p q : QueuePayload)
    (hq : preparePayload env p = .ok q) :
    q.«to» = .arr (litAddrs p.«to» ++ resolveUids env.dir p.toUids) ∧
    q.cc = .arr (litAddrs p.cc ++ resolveUids env.dir p.ccUids) ∧
    q.bcc = .arr (litAddrs p.bcc ++ resolveUids env.dir p.bccUids) := by
  cases hA : applyTemplate env p with
  | error e =>
    unfold preparePayload at hq
    rw [hA] at hq
    simp at hq
  | ok p' =>
    obtain ⟨f1, f2, f3, f4, f5, f6⟩ := applyTemplate_frame env p p' hA
    have hspec := prepare_ok_spec env p p' q hA hq
    rw [hspec]
    simp [f1, f2, f3, f4, f5, f6]

/-- A payload mixing literal addresses with uid lists, two of whose uids
(`u3` absent from the directory, `u2` having no email) are missing. -/
def uidPayload : QueuePayload :=
  ⟨some ⟨some "hi", some "hello", none, none⟩, none, .arr ["x@y.com", "z@w.com"],
   .str "c@c.com", .absent, some ["u1", "u3", "u2"], some ["u2"], none, none, none⟩

/-- What `preparePayload sampleEnv uidPayload` produces. -/
def uidPrepared : QueuePayload :=
  { uidPayload with
    «to» := .arr ["x@y.com", "z@w.com", "u1@example.com"]
    cc := .arr ["c@c.com"], bcc := .arr [] }

/-- Witness for C7: literals first, then the one resolvable uid, the two
missing uids silently dropped. -/
theorem prepare_recipient_order_witness :
    uidPrepared.«to» = .arr (litAddrs uidPayload.«to» ++ resolveUids sampleEnv.dir uidPayload.toUids) ∧
    uidPrepared.cc = .arr (litAddrs uidPayload.cc ++ resolveUids sampleEnv.dir uidPayload.ccUids) ∧
    uidPrepared.bcc = .arr (litAddrs uidPayload.bcc ++ resolveUids sampleEnv.dir uidPayload.bccUids) :=
  prepare_recipient_order sampleEnv uidPayload uidPrepared rfl

/-- C8: with templates configured, a payload whose template object lacks
a name makes `preparePayload` fail with the validation error — before
any transport interaction, as the committed update is the same ERROR one
whatever the transport would have answered. -/
theorem template_missing_name_error (env : Env) (p : QueuePayload) (t : TemplateSpec)
    (hconf : env.templatesConfigured = true)
    (ht : p.template = some t) (hn : t.name = none) :
    preparePayload env p = .error "Template object is missing a 'name' parameter." ∧
    ∀ s, deliver { env with sendResult := s } p =
      ⟨1, true, .ERROR,
       some (errToString "Template object is missing a 'name' parameter."), none, none⟩ := by
  have key : ∀ e : Env, e.templatesConfigured = true →
      preparePayload e p = .error "Template object is missing a 'name' parameter." := by
    intro e he
    have hA : applyTemplate e p = .error "Template object is missing a 'name' parameter." := by
      simp [applyTemplate, ht, he, hn]
    unfold preparePayload
    rw [hA]
  refine ⟨key env hconf, ?_⟩
  intro s
  have hP := key { env with sendResult := s } hconf
  simp [deliver, deliverAttempt, hP]

/-- A payload requesting a template with no `name`. -/
def noNamePayload : QueuePayload :=
  { basePayload with template := some ⟨none, none⟩ }

/-- Witness for C8 at `noNamePayload`, with a transport that would have
failed: the commit is still the validation-error ERROR update. -/
theorem template_missing_name_error_witness :
    preparePayload sampleEnv noNamePayload =
      .error "Template object is missing a 'name' parameter." ∧
    deliver { sampleEnv with sendResult := .error "transport down" } noNamePayload =
      ⟨1, true, .ERROR,
       some (errToString "Template object is missing a 'name' parameter."), none, none⟩ :=
  ⟨(template_missing_name_error sampleEnv noNamePayload ⟨none, none⟩ rfl rfl rfl).1,
   (template_missing_name_error sampleEnv noNamePayload ⟨none, none⟩ rfl rfl rfl).2
     (.error "transport down")⟩

end FirestoreSendEmail
